import Mathlib

/-!
Verification of the DeathNote suspicion-game engine.

This file gives a shallow embedding of the repository
(`src/DeathNoteGame/game_state.py`, `src/DeathNoteGame/logic.py`) and proves
properties of it.

Modelling conventions:
- Python `int` is `Int`; Python `str` is `String`.
- The `GameState` dataclass is a Lean structure.  The dataclass in
  `game_state.py` defines no `cameras_at_home` / `cameras_revealed_to_player`
  fields, yet `logic.py` reads and writes those attributes.  A Python
  attribute that may be absent is modelled as `Option Bool`, with `none`
  meaning "attribute not present"; reading an absent attribute raises
  `AttributeError`.
- Exceptions are modelled with `Except PyError`: `run_step` returns the
  state as mutated so far (Python mutates in place) together with either
  the returned display string or the propagated exception.
- `random.random()` draws are modelled by an explicit sample `roll : Nat`
  at percent granularity: `random.random() < 0.35` becomes `roll < 35` and
  `random.random() < 0.50` becomes `roll < 50` (each turn performs at most
  one draw, so a single sample parameter suffices).  `random.choice` over
  the criminal-name pool is modelled by an explicit index `nameIdx`.
- The external GPT call (`client.chat.completions.create`) is opaque; its
  outcome is the parameter `narrate : Option String`, where `none` means
  the call raises (transport error / missing credential) and `some t`
  means it returns content `t`.
-/

namespace DeathNote

/-- One entry of `GameState.history`: either `{"user": ...}` or
`{"system": ...}`. -/
inductive HistEntry where
  | user : String → HistEntry
  | system : String → HistEntry
  deriving DecidableEq

/-- A propagated Python exception: `AttributeError` from reading an absent
attribute, or the error raised by the external narration call. -/
inductive PyError where
  | attributeError : PyError
  | narrationError : PyError
  deriving DecidableEq

/-- The `GameState` dataclass of `game_state.py`.  The two camera fields are
`Option Bool` because the dataclass does not declare them: they are absent
(`none`) unless some code path manages to set them. -/
structure GameState where
  turn : Int
  location : String
  suspicion_L : Int
  suspicion_task_force : Int
  suspicion_public : Int
  notebook_hidden : Bool
  l_investigation_progress : Int
  flags : List (String × Bool)
  history : List HistEntry
  cameras_at_home : Option Bool
  cameras_revealed_to_player : Option Bool
  deriving DecidableEq

/-- `GameState()` with the dataclass defaults; the camera attributes are
absent. -/
def initial_state : GameState :=
  { turn := 0
    location := "intro"
    suspicion_L := 20
    suspicion_task_force := 10
    suspicion_public := 0
    notebook_hidden := true
    l_investigation_progress := 0
    flags := []
    history := []
    cameras_at_home := none
    cameras_revealed_to_player := none }

/-- Does the character list start with the given pattern? -/
def charsStartWith : List Char → List Char → Bool
  | [], _ => true
  | _ :: _, [] => false
  | p :: ps, c :: cs => p == c && charsStartWith ps cs

/-- Does the pattern occur as a contiguous run inside the character list? -/
def charsContain (pat : List Char) : List Char → Bool
  | [] => pat.isEmpty
  | c :: cs => charsStartWith pat (c :: cs) || charsContain pat cs

/-- Python `pat in s` (substring containment). -/
def strContains (s pat : String) : Bool :=
  charsContain pat.data s.data

/-- Python `s.lower()` (ASCII case folding, which covers every input the
game's keyword rules inspect). -/
def pyLower (s : String) : String :=
  String.mk (s.data.map Char.toLower)

/-- Whitespace stripped by Python `str.strip()`. -/
def pyWhitespace : List Char :=
  [' ', '\t', '\n', '\r', '\x0b', '\x0c']

/-- Python `s.strip()`. -/
def pyStrip (s : String) : String :=
  String.mk
    (((s.data.dropWhile (fun c => pyWhitespace.contains c)).reverse.dropWhile
        (fun c => pyWhitespace.contains c)).reverse)

/-- Python `any(phrase in text for phrase in phrases)`. -/
def containsAny (text : String) (phrases : List String) : Bool :=
  phrases.any (fun p => strContains text p)

/-- Python `flags.get(k, False)`. -/
def flagsGet (flags : List (String × Bool)) (k : String) : Bool :=
  (List.lookup k flags).getD false

/-- Python `flags[k] = v` (dict update, modelled as an association list). -/
def flagsSet (flags : List (String × Bool)) (k : String) (v : Bool) :
    List (String × Bool) :=
  (k, v) :: flags.filter (fun p => !(p.fst == k))

/-- `_clamp` from `logic.py`: clamp an integer into `[lo, hi]`. -/
def _clamp (x : Int) (lo : Int := 0) (hi : Int := 100) : Int :=
  max lo (min hi x)

/-- Flag key `TV_TARGET_FLAG = "tv_target_ready"`. -/
def TV_TARGET_FLAG : String := "tv_target_ready"

/-- Flag key `SECOND_KIRA_REVEALED_FLAG`. -/
def SECOND_KIRA_REVEALED_FLAG : String := "second_kira_revealed"

/-- Flag key `SECOND_KIRA_FRIEND_FLAG`. -/
def SECOND_KIRA_FRIEND_FLAG : String := "second_kira_friend"

/-- `CRIMINAL_NAMES` from `logic.py`. -/
def CRIMINAL_NAMES : List String :=
  ["Hideo Takahashi", "Mika Tanaka", "Daisuke Mori", "Ryoji Nakamura",
   "Kazuo Arai"]

/-- The closed set of action labels of `run_step` (the strings assigned to
`action_label`, plus the informational short-circuits). -/
inductive ActionLabel where
  | status | look_around | write_name | watch_tv | alibi | cooperate
  | hide_notebook | lay_low | move_home | move_school | move_task_force_hq
  | move_downtown | investigate_L | befriend_second_kira | discover_L_name
  | help | other
  deriving DecidableEq

/-- The text-to-label chain of `run_step` (lines 312-643 of `logic.py`): an
ordered list of guards, first match wins, default `other`.  The guards are
pure functions of the normalized text, so the interleaved
classify-and-mutate chain of the source dispatches on exactly this label.
(`write_name` is sub-classified into its degraded no-TV form at mutation
time, as in the source.) -/
def classify (text : String) : ActionLabel :=
  if text == "status" then ActionLabel.status
  else if (["look", "look around", "look around the room",
            "where can i go"]).contains text then ActionLabel.look_around
  else if strContains text ("write") && strContains text ("name") then
    ActionLabel.write_name
  else if containsAny text (["watch tv", "watch the tv", "turn on tv",
      "turn on the tv", "watch the news", "watch news", "check the news",
      "look at the tv", "look at tv", "look at the screen",
      "watch the screen", "watch a screen"]) then ActionLabel.watch_tv
  else if containsAny text (["alibi", "cover", "lie", "excuse"]) then
    ActionLabel.alibi
  else if strContains text ("cooperate")
      || (strContains text ("help") && strContains text ("investigation")) then
    ActionLabel.cooperate
  else if strContains text ("hide") || strContains text ("move the notebook")
      || strContains text ("relocate") then ActionLabel.hide_notebook
  else if strContains text ("lay low") || strContains text ("do nothing")
      || strContains text ("stay quiet") then ActionLabel.lay_low
  else if containsAny text (["go home", "return home", "back home",
      "to my room", "to my house"]) then ActionLabel.move_home
  else if containsAny text (["go to school", "go to class", "go to campus",
      "to school"]) then ActionLabel.move_school
  else if containsAny text (["task force hq", "go to hq", "go to task force",
      "meet the task force", "go to police"]) then
    ActionLabel.move_task_force_hq
  else if containsAny text (["go downtown", "go outside", "go into the city",
      "walk around town", "go out"]) then ActionLabel.move_downtown
  else if containsAny text (["investigate l", "study l", "research l",
      "analyze l", "look into l", "learn about l"]) then
    ActionLabel.investigate_L
  else if containsAny text (["befriend second kira", "ally with second kira",
      "ally with the second kira", "contact second kira", "meet second kira",
      "work with second kira"]) then ActionLabel.befriend_second_kira
  else if containsAny text (["l\x27s real name", "l\x27s true name",
      "find l\x27s name", "learn l\x27s name", "discover l\x27s name",
      "figure out l\x27s name", "know l\x27s name"]) then
    ActionLabel.discover_L_name
  else if text == "help" then ActionLabel.help
  else ActionLabel.other

example : classify (pyStrip (pyLower ("  Write his NAME "))) =
    ActionLabel.write_name := by decide

example : classify (pyStrip (pyLower ("find l\x27s name"))) =
    ActionLabel.discover_L_name := by decide

example : classify (pyStrip (pyLower ("discover l\x27s name"))) =
    ActionLabel.alibi := by decide

example : classify (pyStrip (pyLower ("investigate L"))) =
    ActionLabel.investigate_L := by decide

example : classify (pyStrip (pyLower ("status"))) = ActionLabel.status := by
  decide

example : classify (pyStrip (pyLower ("write the name and go home"))) =
    ActionLabel.write_name := by decide

/-- Static message for the `location == "caught"` terminal guard. -/
def caught_text : String :=
  "You have already been exposed as Kira.\nUse the Reset button to start a new timeline."

/-- Static message for the `location == "victory"` terminal guard. -/
def victory_text : String :=
  "You have already reshaped this timeline according to your will.\nUse the Reset button if you want to attempt a different path."

/-- The intro / welcome screen text. -/
def intro_text : String :=
  "Welcome to the Kira Suspicion Simulator.\n\nYou are secretly Kira, using a supernatural notebook that can kill.\nPublicly, you have just agreed to work with L and the Task Force to help\ncatch \x27Kira\x27—without letting anyone realize that Kira is you.\n\nIn this version of the story, you can only write a name after you\x27ve\nrecently watched a TV or public screen and seen someone\x27s face and name.\n\nType what you want to do each turn. For example:\n- \x27watch tv\x27 or \x27watch the news\x27\n- \x27write a criminal\x27s name\x27 (after watching a screen)\n- \x27look around\x27 to see where you can move\n- \x27cooperate with the investigation\x27\n- \x27create an alibi\x27\n- \x27lay low\x27\n- \x27investigate L\x27\n- move: \x27go home\x27, \x27go to school\x27, \x27go to task force hq\x27, \x27go downtown\x27\n- \x27status\x27 to see location and suspicion levels\n\nYour goal is to use the notebook without letting suspicion reach 100,\nor to uncover the detective\x27s true name before he catches you."

/-- The look-around message (embeds the current location). -/
def look_text (location : String) : String :=
  "You look around. Right now you are at: " ++ location ++
  ".\n\nFrom here, you can move to:\n- home\n- school\n- task force hq\n- downtown\n\nUse commands like \x27go home\x27, \x27go to school\x27, \x27go to task force hq\x27, or \x27go downtown\x27."

/-- Event message for a write attempt with no fresh TV target. -/
def write_no_tv_text : String :=
  "You reach for the notebook, but you have no fresh name and face from a broadcast.\nIn this timeline, the notebook only answers when your target has just been paraded across a screen. For now, the pages stay still."

/-- Event message for investigating L away from Task Force HQ. -/
def hq_needed_text : String :=
  "You try to piece together information about L from here, but without direct access to the Task Force data at headquarters it\x27s mostly rumors and guesswork.\nIf you want to truly investigate L, you should go to task force hq first."

/-- Event message for a failed investigate-L roll at HQ. -/
def backfire_text : String :=
  "At headquarters, you push a little too hard for details about L himself.\nYour questions linger in the air a bit too long, and you catch the way L\x27s eyes rest on you.\nThis attempt to investigate him backfires—his suspicion of you spikes sharply."

/-- One-time second-Kira TV reveal message. -/
def reveal_text : String :=
  "While you\x27re reviewing case files with the Task Force, a breaking-news banner cuts across the TV in the corner.\nA distorted voice claiming to be \x27Kira\x27 appears, demanding to speak directly with L. The style is theatrical and reckless—nothing like the careful pattern you\x27ve established.\nOn screen and in the room, people start whispering about a \x27second Kira\x27 who may share your power but not your caution.\nIf you can quietly befriend this second Kira, they might help you read how L reacts to new threats.\nTry commands like \x27befriend second kira\x27 or \x27ally with the second kira\x27."

/-- Befriend attempt before the reveal. -/
def befriend_no_rumor_text : String :=
  "You hear nothing but rumors. If there is a second Kira, you haven\x27t seen enough to reach them yet. Maybe you should investigate L at task force hq first."

/-- Befriend attempt when the alliance already exists. -/
def befriend_already_text : String :=
  "Your fragile alliance with the second Kira is already in place. For now you both keep your distance and watch how L responds."

/-- Successful befriend message. -/
def befriend_success_text : String :=
  "Through carefully coded messages, you manage to reach the second Kira.\nThey are impulsive and eager to please, willing to act just to see how L reacts.\nBy nudging their actions, you gain a clearer view of L\x27s methods and timing.\nYour understanding of L deepens (+1 L-investigation progress), but the case also becomes stranger and harder to hide."

/-- Hidden-camera discovery event message. -/
def camera_event_text : String :=
  "When you settle back into your room, something feels wrong.\nA faint click from the ceiling, a lens glint near the bookshelf—someone has installed hidden cameras in your home.\nUsing the notebook here is now extremely risky."

/-- Tail of the name-discovery victory message (appended to the summary). -/
def discover_win_tail : String :=
  "\nThrough careful investigation and controlled risks, you finally piece together the detective\x27s true identity.\nWith his real name in your hands, the one person who could truly corner you is no longer untouchable.\nThis timeline now belongs to Kira.\nUse Reset if you want to explore a different path."

/-- Tail of the failed name-discovery message. -/
def discover_fail_tail : String :=
  "\nYou reach too far, too soon.\nYour attempts to uncover L\x27s identity run into fake records and suddenly watchful eyes.\nIf you want his name, you need more groundwork first."

/-- Tail of the low-suspicion victory message. -/
def winA_tail : String :=
  "\nThe world tilts in your favor.\nDeaths continue to follow the pattern you choose, but L and the Task\nForce never quite manage to pin them on you. You remain their ally\non paper and their god in secret.\nUse Reset if you want to attempt a different path."

/-- Tail of the defeat message. -/
def lose_tail : String :=
  "\nThe pieces finally line up.\nYour movements, alibis, and timing all converge on one conclusion.\nYou are confronted with the evidence and quietly cornered.\nYou have been exposed as Kira. Game over.\nUse Reset to start a new timeline."

/-- The static help text. -/
def help_text : String :=
  "Commands you can try:\n- \x27watch tv\x27 or \x27watch the news\x27 to get a target\n- \x27write a name\x27 to use the notebook (only after watching a screen)\n- \x27look around\x27 to see where you can move\n- \x27create an alibi\x27 or \x27cover my tracks\x27\n- \x27cooperate with the investigation\x27\n- \x27lay low\x27 or \x27do nothing\x27\n- \x27hide the notebook\x27\n- \x27investigate L\x27 at task force hq to build progress (may reveal a second Kira, but sometimes backfires and sharply raises L\x27s suspicion)\n- after the TV reveal: \x27befriend second kira\x27 to try forming an alliance\n- move: \x27go home\x27, \x27go to school\x27, \x27go to task force hq\x27, \x27go downtown\x27\n- later: try to find L\x27s name when you think you\x27re ready\n- \x27status\x27 to see location, cameras, and suspicion levels\n"

/-- `_suspicion_summary` from `logic.py`.  Its first step reads
`state.cameras_revealed_to_player`; on the dataclass that attribute does
not exist, so the read raises `AttributeError`. -/
def _suspicion_summary (state : GameState) : Except PyError String :=
  match state.cameras_revealed_to_player with
  | none => Except.error PyError.attributeError
  | some revealed =>
    let camera_text :=
      if revealed then "hidden cameras detected at home"
      else "no known cameras at home"
    Except.ok ("Current location: " ++ state.location ++ "\n" ++
      "Home security: " ++ camera_text ++ "\n" ++
      "Suspicion levels:\n" ++
      "- L: " ++ toString state.suspicion_L ++ "/100\n" ++
      "- Task Force: " ++ toString state.suspicion_task_force ++ "/100\n" ++
      "L-investigation progress: " ++
      toString state.l_investigation_progress ++ "/3\n")

/-- `generate_narration` from `logic.py`.  It first serializes the state
(`_state_to_text`), which reads `state.cameras_at_home` — an absent
attribute raises `AttributeError` before the external call is attempted.
The external GPT request itself is the opaque capability `narrate`: `none`
models the call raising (transport error or missing credential), `some
content` models a successful completion, whose content is `.strip()`ped. -/
def generate_narration (narrate : Option String) (state : GameState) :
    Except PyError String :=
  match state.cameras_at_home with
  | none => Except.error PyError.attributeError
  | some _ =>
    match narrate with
    | none => Except.error PyError.narrationError
    | some content => Except.ok (pyStrip content)

/-- `_maybe_grant_tv_target` from `logic.py`: on movement, with probability
0.35, grant the TV target flag and append a location-flavored event
message.  `roll < 35` models `random.random() < 0.35`; `nameIdx` models
`random.choice(CRIMINAL_NAMES)`. -/
def _maybe_grant_tv_target (roll nameIdx : Nat) (state : GameState)
    (event_messages : List String) : GameState × List String :=
  if flagsGet state.flags TV_TARGET_FLAG then (state, event_messages)
  else if roll < 35 then
    let state1 := {state with flags := flagsSet state.flags TV_TARGET_FLAG true}
    let name := CRIMINAL_NAMES.getD nameIdx ("")
    let place :=
      if state1.location == "home" then "a news report on the living room TV"
      else if state1.location == "school" then
        "a TV left on in the school hallway"
      else if state1.location == "task_force_hq" then
        "a muted news feed playing in the Task Force\x27s lobby"
      else "a row of bright TVs in a shop window"
    (state1, event_messages ++
      ["As you move, " ++ place ++
       " catches your eye.\nThe anchors repeat the name and show the face of a wanted criminal: "
       ++ name ++
       ".\nYou now have a clear name and face in mind—you could write this person in the notebook."])
  else (state, event_messages)

/-- `state.history.append({"system": out}); return state, out`. -/
def emit (state : GameState) (out : String) :
    GameState × Except PyError String :=
  ({state with history := state.history ++ [HistEntry.system out]},
   Except.ok out)

/-- The `_suspicion_summary(state) + tail` ending idiom of `run_step`: the
summary can raise `AttributeError` (after the ending's own mutations are
already committed); on success the combined text is returned and logged. -/
def end_with_summary (state1 : GameState) (tail : String) :
    GameState × Except PyError String :=
  match _suspicion_summary state1 with
  | Except.error e => (state1, Except.error e)
  | Except.ok summary => emit state1 (summary ++ tail)

/-- The narration step of `run_step` (lines 696-710 of `logic.py`):
generate the narration (which can raise), join pending event messages,
apply the deferred TV-target consumption, log and return. -/
def narrate_and_close (narrate : Option String) (consume : Bool)
    (state : GameState) (event_messages : List String) :
    GameState × Except PyError String :=
  match generate_narration narrate state with
  | Except.error e => (state, Except.error e)
  | Except.ok narrative =>
    let out0 := "[GPT]\n" ++ narrative
    let out :=
      if event_messages.isEmpty then out0
      else String.intercalate "\n\n" (event_messages ++ [out0])
    let state1 :=
      if consume then
        {state with flags := flagsSet state.flags TV_TARGET_FLAG false}
      else state
    emit state1 out

/-- The tail of `run_step` after the action branch: the win/lose checks and
the narration call (lines 664-710 of `logic.py`).  `consume` is the
`consume_tv_target_after` flag. -/
def win_lose_and_narrate (narrate : Option String) (consume : Bool)
    (state : GameState) (event_messages : List String) :
    GameState × Except PyError String :=
  if state.suspicion_L ≤ 40 ∧ state.suspicion_task_force ≤ 40 ∧
      10 ≤ state.turn then
    end_with_summary {state with location := "victory"} winA_tail
  else if 100 ≤ state.suspicion_L ∨ 100 ≤ state.suspicion_task_force then
    end_with_summary {state with location := "caught"} lose_tail
  else narrate_and_close narrate consume state event_messages

/-- The camera-reveal event (lines 648-660 of `logic.py`) followed by the
win/lose/narration tail.  The guard short-circuits, so
`state.cameras_at_home` is only read (raising `AttributeError` when the
attribute is absent) when the location is home and `suspicion_L >= 50`. -/
def after_action (narrate : Option String) (consume : Bool)
    (state : GameState) (event_messages : List String) :
    GameState × Except PyError String :=
  if state.location == "home" ∧ 50 ≤ state.suspicion_L then
    match state.cameras_at_home with
    | none => (state, Except.error PyError.attributeError)
    | some true => win_lose_and_narrate narrate consume state event_messages
    | some false =>
      win_lose_and_narrate narrate consume
        {state with cameras_at_home := some true
                    cameras_revealed_to_player := some true}
        (event_messages ++ [camera_event_text])
  else win_lose_and_narrate narrate consume state event_messages

/-- The classify-and-mutate chain of `run_step` (lines 312-643 of
`logic.py`), dispatched on the classified label, applied to the state as
already updated by the turn/history prologue. -/
def apply_action (roll nameIdx : Nat) (narrate : Option String)
    (label : ActionLabel) (state0 : GameState) :
    GameState × Except PyError String :=
  match label with
  | ActionLabel.status =>
      match _suspicion_summary state0 with
      | Except.error e => (state0, Except.error e)
      | Except.ok out => emit state0 out
  | ActionLabel.look_around =>
      emit state0 (look_text state0.location)
  | ActionLabel.write_name =>
      if flagsGet state0.flags TV_TARGET_FLAG = false then
        after_action narrate false
          {state0 with suspicion_L := _clamp (state0.suspicion_L + 1)}
          [write_no_tv_text]
      else
        let s1 := {state0 with
          suspicion_L := _clamp (state0.suspicion_L + 8)
          suspicion_task_force := _clamp (state0.suspicion_task_force + 5)}
        if s1.location == "home" then
          match s1.cameras_at_home with
          | none => (s1, Except.error PyError.attributeError)
          | some true =>
            after_action narrate true
              {s1 with
               suspicion_L := _clamp (s1.suspicion_L + 10)
               suspicion_task_force := _clamp (s1.suspicion_task_force + 10)}
              []
          | some false => after_action narrate true s1 []
        else after_action narrate true s1 []
  | ActionLabel.watch_tv =>
      after_action narrate false
        {state0 with
         flags := flagsSet state0.flags TV_TARGET_FLAG true
         suspicion_L := _clamp (state0.suspicion_L + 1)
         suspicion_task_force := _clamp (state0.suspicion_task_force + 1)} []
  | ActionLabel.alibi =>
      after_action narrate false
        {state0 with
         suspicion_task_force := _clamp (state0.suspicion_task_force - 6)
         suspicion_L := _clamp (state0.suspicion_L + 2)} []
  | ActionLabel.cooperate =>
      after_action narrate false
        {state0 with
         suspicion_task_force := _clamp (state0.suspicion_task_force - 4)
         suspicion_L := _clamp (state0.suspicion_L + 3)} []
  | ActionLabel.hide_notebook =>
      let s1 :=
        if state0.notebook_hidden = false then
          {state0 with notebook_hidden := true}
        else state0
      after_action narrate false
        {s1 with suspicion_L := _clamp (s1.suspicion_L + 1)} []
  | ActionLabel.lay_low =>
      after_action narrate false
        {state0 with
         suspicion_L := _clamp (state0.suspicion_L - 2)
         suspicion_task_force := _clamp (state0.suspicion_task_force - 1)} []
  | ActionLabel.move_home =>
      let s1 := {state0 with
        location := "home"
        suspicion_L := _clamp (state0.suspicion_L - 1)
        suspicion_task_force := _clamp (state0.suspicion_task_force - 1)}
      let p := _maybe_grant_tv_target roll nameIdx s1 []
      after_action narrate false p.fst p.snd
  | ActionLabel.move_school =>
      let s1 := {state0 with
        location := "school"
        suspicion_task_force := _clamp (state0.suspicion_task_force - 1)}
      let p := _maybe_grant_tv_target roll nameIdx s1 []
      after_action narrate false p.fst p.snd
  | ActionLabel.move_task_force_hq =>
      let s1 := {state0 with
        location := "task_force_hq"
        suspicion_task_force := _clamp (state0.suspicion_task_force - 2)
        suspicion_L := _clamp (state0.suspicion_L + 2)}
      let p := _maybe_grant_tv_target roll nameIdx s1 []
      after_action narrate false p.fst p.snd
  | ActionLabel.move_downtown =>
      let s1 := {state0 with location := "downtown"}
      let p := _maybe_grant_tv_target roll nameIdx s1 []
      after_action narrate false p.fst p.snd
  | ActionLabel.investigate_L =>
      if !(state0.location == "task_force_hq") then
        after_action narrate false state0 [hq_needed_text]
      else if roll < 50 then
        after_action narrate false
          {state0 with suspicion_L := _clamp (state0.suspicion_L + 30)}
          [backfire_text]
      else
        let s1 := {state0 with
          l_investigation_progress :=
            min 3 (state0.l_investigation_progress + 1)
          suspicion_L := _clamp (state0.suspicion_L + 5)
          suspicion_task_force := _clamp (state0.suspicion_task_force + 3)}
        if flagsGet s1.flags SECOND_KIRA_REVEALED_FLAG = false then
          after_action narrate false
            {s1 with flags := flagsSet s1.flags SECOND_KIRA_REVEALED_FLAG true}
            [reveal_text]
        else after_action narrate false s1 []
  | ActionLabel.befriend_second_kira =>
      if flagsGet state0.flags SECOND_KIRA_REVEALED_FLAG = false then
        after_action narrate false state0 [befriend_no_rumor_text]
      else if flagsGet state0.flags SECOND_KIRA_FRIEND_FLAG then
        after_action narrate false state0 [befriend_already_text]
      else
        after_action narrate false
          {state0 with
           flags := flagsSet state0.flags SECOND_KIRA_FRIEND_FLAG true
           l_investigation_progress :=
             min 3 (state0.l_investigation_progress + 1)
           suspicion_L := _clamp (state0.suspicion_L + 4)
           suspicion_task_force := _clamp (state0.suspicion_task_force + 2)}
          [befriend_success_text]
  | ActionLabel.discover_L_name =>
      if 3 ≤ state0.l_investigation_progress ∧ 6 ≤ state0.turn ∧
          state0.suspicion_L ≤ 70 then
        end_with_summary
          {state0 with
           flags := flagsSet state0.flags ("l_name_known") true
           location := "victory"}
          discover_win_tail
      else
        end_with_summary
          {state0 with
           suspicion_L := _clamp (state0.suspicion_L + 12)
           suspicion_task_force := _clamp (state0.suspicion_task_force + 8)}
          discover_fail_tail
  | ActionLabel.help =>
      emit state0 help_text
  | ActionLabel.other =>
      after_action narrate false
        {state0 with suspicion_L := _clamp (state0.suspicion_L + 1)} []

/-- `run_step` from `logic.py`: one player action.  The returned state is
the aggregate as mutated in place by the Python code (also when an
exception escapes), and the second component is either the returned
display string or the propagated exception. -/
def run_step (roll nameIdx : Nat) (narrate : Option String)
    (state : GameState) (user_input : String) :
    GameState × Except PyError String :=
  let state0 := {state with
    turn := state.turn + 1
    history := state.history ++ [HistEntry.user user_input]}
  let text := pyStrip (pyLower user_input)
  if state0.location == "caught" then emit state0 caught_text
  else if state0.location == "victory" then emit state0 victory_text
  else if state0.location == "intro" then
    emit {state0 with location := "home"} intro_text
  else apply_action roll nameIdx narrate (classify text) state0

/-- The states a single session can reach: the fresh `GameState()` and
everything `run_step` produces from a reachable state (also when the call
ends in a propagated exception, since Python mutates the aggregate in
place). -/
inductive Reachable : GameState → Prop where
  | init : Reachable initial_state
  | step : ∀ (s : GameState) (roll nameIdx : Nat) (narrate : Option String)
      (input : String), Reachable s →
      Reachable (run_step roll nameIdx narrate s input).fst

/-- `_clamp` with the default bounds lands in `[0, 100]`. -/
theorem _clamp_mem (x : Int) : 0 ≤ _clamp x ∧ _clamp x ≤ 100 := by
  unfold _clamp
  constructor
  · exact le_max_left 0 _
  · exact max_le (by norm_num) (min_le_left _ _)

/-- Reading back a freshly written flag. -/
theorem flagsGet_flagsSet_same (flags : List (String × Bool)) (k : String)
    (v : Bool) : flagsGet (flagsSet flags k v) k = v := by
  simp [flagsGet, flagsSet, List.lookup]

/-- An ending preserves everything but location/history (those were set by
the caller before the summary). -/
@[simp] theorem ews_turn (s : GameState) (t : String) :
    ((end_with_summary s t).fst).turn = s.turn := by
  unfold end_with_summary emit
  cases h : _suspicion_summary s <;> simp

@[simp] theorem ews_location (s : GameState) (t : String) :
    ((end_with_summary s t).fst).location = s.location := by
  unfold end_with_summary emit
  cases h : _suspicion_summary s <;> simp

@[simp] theorem ews_L (s : GameState) (t : String) :
    ((end_with_summary s t).fst).suspicion_L = s.suspicion_L := by
  unfold end_with_summary emit
  cases h : _suspicion_summary s <;> simp

@[simp] theorem ews_TF (s : GameState) (t : String) :
    ((end_with_summary s t).fst).suspicion_task_force =
      s.suspicion_task_force := by
  unfold end_with_summary emit
  cases h : _suspicion_summary s <;> simp

@[simp] theorem ews_public (s : GameState) (t : String) :
    ((end_with_summary s t).fst).suspicion_public = s.suspicion_public := by
  unfold end_with_summary emit
  cases h : _suspicion_summary s <;> simp

@[simp] theorem ews_notebook (s : GameState) (t : String) :
    ((end_with_summary s t).fst).notebook_hidden = s.notebook_hidden := by
  unfold end_with_summary emit
  cases h : _suspicion_summary s <;> simp

@[simp] theorem ews_progress (s : GameState) (t : String) :
    ((end_with_summary s t).fst).l_investigation_progress =
      s.l_investigation_progress := by
  unfold end_with_summary emit
  cases h : _suspicion_summary s <;> simp

@[simp] theorem ews_flags (s : GameState) (t : String) :
    ((end_with_summary s t).fst).flags = s.flags := by
  unfold end_with_summary emit
  cases h : _suspicion_summary s <;> simp

@[simp] theorem ews_cam (s : GameState) (t : String) :
    ((end_with_summary s t).fst).cameras_at_home = s.cameras_at_home := by
  unfold end_with_summary emit
  cases h : _suspicion_summary s <;> simp

@[simp] theorem ews_cam_rev (s : GameState) (t : String) :
    ((end_with_summary s t).fst).cameras_revealed_to_player =
      s.cameras_revealed_to_player := by
  unfold end_with_summary emit
  cases h : _suspicion_summary s <;> simp

/-- The narration step preserves everything but flags/history. -/
@[simp] theorem nac_turn (n : Option String) (c : Bool) (s : GameState)
    (ev : List String) :
    ((narrate_and_close n c s ev).fst).turn = s.turn := by
  unfold narrate_and_close emit
  cases h : generate_narration n s <;> simp <;> split_ifs <;> simp

@[simp] theorem nac_location (n : Option String) (c : Bool) (s : GameState)
    (ev : List String) :
    ((narrate_and_close n c s ev).fst).location = s.location := by
  unfold narrate_and_close emit
  cases h : generate_narration n s <;> simp <;> split_ifs <;> simp

@[simp] theorem nac_L (n : Option String) (c : Bool) (s : GameState)
    (ev : List String) :
    ((narrate_and_close n c s ev).fst).suspicion_L = s.suspicion_L := by
  unfold narrate_and_close emit
  cases h : generate_narration n s <;> simp <;> split_ifs <;> simp

@[simp] theorem nac_TF (n : Option String) (c : Bool) (s : GameState)
    (ev : List String) :
    ((narrate_and_close n c s ev).fst).suspicion_task_force =
      s.suspicion_task_force := by
  unfold narrate_and_close emit
  cases h : generate_narration n s <;> simp <;> split_ifs <;> simp

@[simp] theorem nac_public (n : Option String) (c : Bool) (s : GameState)
    (ev : List String) :
    ((narrate_and_close n c s ev).fst).suspicion_public =
      s.suspicion_public := by
  unfold narrate_and_close emit
  cases h : generate_narration n s <;> simp <;> split_ifs <;> simp

@[simp] theorem nac_notebook (n : Option String) (c : Bool) (s : GameState)
    (ev : List String) :
    ((narrate_and_close n c s ev).fst).notebook_hidden =
      s.notebook_hidden := by
  unfold narrate_and_close emit
  cases h : generate_narration n s <;> simp <;> split_ifs <;> simp

@[simp] theorem nac_progress (n : Option String) (c : Bool) (s : GameState)
    (ev : List String) :
    ((narrate_and_close n c s ev).fst).l_investigation_progress =
      s.l_investigation_progress := by
  unfold narrate_and_close emit
  cases h : generate_narration n s <;> simp <;> split_ifs <;> simp

@[simp] theorem nac_cam (n : Option String) (c : Bool) (s : GameState)
    (ev : List String) :
    ((narrate_and_close n c s ev).fst).cameras_at_home =
      s.cameras_at_home := by
  unfold narrate_and_close emit
  cases h : generate_narration n s <;> simp <;> split_ifs <;> simp

@[simp] theorem nac_cam_rev (n : Option String) (c : Bool) (s : GameState)
    (ev : List String) :
    ((narrate_and_close n c s ev).fst).cameras_revealed_to_player =
      s.cameras_revealed_to_player := by
  unfold narrate_and_close emit
  cases h : generate_narration n s <;> simp <;> split_ifs <;> simp

@[simp] theorem nac_flags (n : Option String) (s : GameState)
    (ev : List String) :
    ((narrate_and_close n false s ev).fst).flags = s.flags := by
  unfold narrate_and_close emit
  cases h : generate_narration n s <;> simp

/-- The win/lose/narration tail never changes the meters, the progress
counter, the notebook flag, the turn counter or the camera attributes. -/
@[simp] theorem wln_L (n : Option String) (c : Bool) (s : GameState)
    (ev : List String) :
    ((win_lose_and_narrate n c s ev).fst).suspicion_L = s.suspicion_L := by
  unfold win_lose_and_narrate
  split_ifs <;> simp

@[simp] theorem wln_TF (n : Option String) (c : Bool) (s : GameState)
    (ev : List String) :
    ((win_lose_and_narrate n c s ev).fst).suspicion_task_force =
      s.suspicion_task_force := by
  unfold win_lose_and_narrate
  split_ifs <;> simp

@[simp] theorem wln_public (n : Option String) (c : Bool) (s : GameState)
    (ev : List String) :
    ((win_lose_and_narrate n c s ev).fst).suspicion_public =
      s.suspicion_public := by
  unfold win_lose_and_narrate
  split_ifs <;> simp

@[simp] theorem wln_progress (n : Option String) (c : Bool) (s : GameState)
    (ev : List String) :
    ((win_lose_and_narrate n c s ev).fst).l_investigation_progress =
      s.l_investigation_progress := by
  unfold win_lose_and_narrate
  split_ifs <;> simp

@[simp] theorem wln_notebook (n : Option String) (c : Bool) (s : GameState)
    (ev : List String) :
    ((win_lose_and_narrate n c s ev).fst).notebook_hidden =
      s.notebook_hidden := by
  unfold win_lose_and_narrate
  split_ifs <;> simp

@[simp] theorem wln_turn (n : Option String) (c : Bool) (s : GameState)
    (ev : List String) :
    ((win_lose_and_narrate n c s ev).fst).turn = s.turn := by
  unfold win_lose_and_narrate
  split_ifs <;> simp

@[simp] theorem wln_flags (n : Option String) (s : GameState)
    (ev : List String) :
    ((win_lose_and_narrate n false s ev).fst).flags = s.flags := by
  unfold win_lose_and_narrate
  split_ifs <;> simp

/-- When neither the low-suspicion win nor the loss condition holds, the
tail preserves the location. -/
theorem wln_location (n : Option String) (c : Bool) (s : GameState)
    (ev : List String)
    (hwin : ¬(s.suspicion_L ≤ 40 ∧ s.suspicion_task_force ≤ 40 ∧
        10 ≤ s.turn))
    (hlose : ¬(100 ≤ s.suspicion_L ∨ 100 ≤ s.suspicion_task_force)) :
    ((win_lose_and_narrate n c s ev).fst).location = s.location := by
  unfold win_lose_and_narrate
  rw [if_neg hwin, if_neg hlose]
  simp

/-- The camera event plus the tail never changes the meters, the progress
counter, the notebook flag or the turn counter. -/
@[simp] theorem aa_L (n : Option String) (c : Bool) (s : GameState)
    (ev : List String) :
    ((after_action n c s ev).fst).suspicion_L = s.suspicion_L := by
  unfold after_action
  split_ifs <;> (try cases h : s.cameras_at_home) <;> (try cases ‹Bool›) <;>
    simp

@[simp] theorem aa_TF (n : Option String) (c : Bool) (s : GameState)
    (ev : List String) :
    ((after_action n c s ev).fst).suspicion_task_force =
      s.suspicion_task_force := by
  unfold after_action
  split_ifs <;> (try cases h : s.cameras_at_home) <;> (try cases ‹Bool›) <;>
    simp

@[simp] theorem aa_public (n : Option String) (c : Bool) (s : GameState)
    (ev : List String) :
    ((after_action n c s ev).fst).suspicion_public = s.suspicion_public := by
  unfold after_action
  split_ifs <;> (try cases h : s.cameras_at_home) <;> (try cases ‹Bool›) <;>
    simp

@[simp] theorem aa_progress (n : Option String) (c : Bool) (s : GameState)
    (ev : List String) :
    ((after_action n c s ev).fst).l_investigation_progress =
      s.l_investigation_progress := by
  unfold after_action
  split_ifs <;> (try cases h : s.cameras_at_home) <;> (try cases ‹Bool›) <;>
    simp

@[simp] theorem aa_notebook (n : Option String) (c : Bool) (s : GameState)
    (ev : List String) :
    ((after_action n c s ev).fst).notebook_hidden = s.notebook_hidden := by
  unfold after_action
  split_ifs <;> (try cases h : s.cameras_at_home) <;> (try cases ‹Bool›) <;>
    simp

@[simp] theorem aa_turn (n : Option String) (c : Bool) (s : GameState)
    (ev : List String) :
    ((after_action n c s ev).fst).turn = s.turn := by
  unfold after_action
  split_ifs <;> (try cases h : s.cameras_at_home) <;> (try cases ‹Bool›) <;>
    simp

@[simp] theorem aa_flags (n : Option String) (s : GameState)
    (ev : List String) :
    ((after_action n false s ev).fst).flags = s.flags := by
  unfold after_action
  split_ifs <;> (try cases h : s.cameras_at_home) <;> (try cases ‹Bool›) <;>
    simp

/-- The TV-target grant touches only the flags (and the event list). -/
@[simp] theorem mgtt_turn (roll nameIdx : Nat) (s : GameState)
    (ev : List String) :
    ((_maybe_grant_tv_target roll nameIdx s ev).fst).turn = s.turn := by
  unfold _maybe_grant_tv_target
  split_ifs <;> simp

@[simp] theorem mgtt_location (roll nameIdx : Nat) (s : GameState)
    (ev : List String) :
    ((_maybe_grant_tv_target roll nameIdx s ev).fst).location =
      s.location := by
  unfold _maybe_grant_tv_target
  split_ifs <;> simp

@[simp] theorem mgtt_L (roll nameIdx : Nat) (s : GameState)
    (ev : List String) :
    ((_maybe_grant_tv_target roll nameIdx s ev).fst).suspicion_L =
      s.suspicion_L := by
  unfold _maybe_grant_tv_target
  split_ifs <;> simp

@[simp] theorem mgtt_TF (roll nameIdx : Nat) (s : GameState)
    (ev : List String) :
    ((_maybe_grant_tv_target roll nameIdx s ev).fst).suspicion_task_force =
      s.suspicion_task_force := by
  unfold _maybe_grant_tv_target
  split_ifs <;> simp

@[simp] theorem mgtt_public (roll nameIdx : Nat) (s : GameState)
    (ev : List String) :
    ((_maybe_grant_tv_target roll nameIdx s ev).fst).suspicion_public =
      s.suspicion_public := by
  unfold _maybe_grant_tv_target
  split_ifs <;> simp

@[simp] theorem mgtt_notebook (roll nameIdx : Nat) (s : GameState)
    (ev : List String) :
    ((_maybe_grant_tv_target roll nameIdx s ev).fst).notebook_hidden =
      s.notebook_hidden := by
  unfold _maybe_grant_tv_target
  split_ifs <;> simp

@[simp] theorem mgtt_progress (roll nameIdx : Nat) (s : GameState)
    (ev : List String) :
    ((_maybe_grant_tv_target roll nameIdx s
        ev).fst).l_investigation_progress =
      s.l_investigation_progress := by
  unfold _maybe_grant_tv_target
  split_ifs <;> simp

@[simp] theorem mgtt_cam (roll nameIdx : Nat) (s : GameState)
    (ev : List String) :
    ((_maybe_grant_tv_target roll nameIdx s ev).fst).cameras_at_home =
      s.cameras_at_home := by
  unfold _maybe_grant_tv_target
  split_ifs <;> simp

@[simp] theorem mgtt_cam_rev (roll nameIdx : Nat) (s : GameState)
    (ev : List String) :
    ((_maybe_grant_tv_target roll nameIdx s
        ev).fst).cameras_revealed_to_player =
      s.cameras_revealed_to_player := by
  unfold _maybe_grant_tv_target
  split_ifs <;> simp

/-- When neither ending condition holds, the camera event plus the tail
preserves the location. -/
theorem aa_location (n : Option String) (c : Bool) (s : GameState)
    (ev : List String)
    (hwin : ¬(s.suspicion_L ≤ 40 ∧ s.suspicion_task_force ≤ 40 ∧
        10 ≤ s.turn))
    (hlose : ¬(100 ≤ s.suspicion_L ∨ 100 ≤ s.suspicion_task_force)) :
    ((after_action n c s ev).fst).location = s.location := by
  unfold after_action
  split_ifs <;> (try cases h : s.cameras_at_home) <;> (try cases ‹Bool›) <;>
    first
      | rfl
      | exact wln_location _ _ _ _ hwin hlose

/-- The action dispatch never writes `suspicion_public`. -/
theorem ap_public (roll nameIdx : Nat) (narrate : Option String)
    (label : ActionLabel) (state0 : GameState) :
    ((apply_action roll nameIdx narrate label state0).fst).suspicion_public =
      state0.suspicion_public := by
  cases label <;> simp only [apply_action] <;> (repeat' split) <;>
    simp [emit]

/-- `run_step` never writes `suspicion_public` (helper for the frame
claims). -/
theorem run_step_public (roll nameIdx : Nat) (narrate : Option String)
    (s : GameState) (input : String) :
    ((run_step roll nameIdx narrate s input).fst).suspicion_public =
      s.suspicion_public := by
  simp only [run_step]
  split_ifs <;> simp [emit, ap_public]

/-- The action dispatch never un-hides the notebook. -/
theorem ap_notebook (roll nameIdx : Nat) (narrate : Option String)
    (label : ActionLabel) (state0 : GameState)
    (h : state0.notebook_hidden = true) :
    ((apply_action roll nameIdx narrate label state0).fst).notebook_hidden =
      true := by
  cases label <;> simp only [apply_action] <;> (repeat' split) <;>
    simp_all [emit]

/-- `run_step` never un-hides the notebook. -/
theorem run_step_notebook (roll nameIdx : Nat) (narrate : Option String)
    (s : GameState) (input : String) (h : s.notebook_hidden = true) :
    ((run_step roll nameIdx narrate s input).fst).notebook_hidden = true := by
  simp only [run_step]
  split_ifs <;> simp [emit, ap_notebook, h]

/-- The meter bounds: each suspicion meter in `[0,100]`, investigation
progress in `[0,3]`. -/
def MeterInv (s : GameState) : Prop :=
  0 ≤ s.suspicion_L ∧ s.suspicion_L ≤ 100 ∧
  0 ≤ s.suspicion_task_force ∧ s.suspicion_task_force ≤ 100 ∧
  0 ≤ s.suspicion_public ∧ s.suspicion_public ≤ 100 ∧
  0 ≤ s.l_investigation_progress ∧ s.l_investigation_progress ≤ 3

set_option maxHeartbeats 2000000 in
/-- The action dispatch preserves the meter bounds: every meter write goes
through `_clamp` and every progress write through `min 3 (p + 1)`. -/
theorem ap_inv (roll nameIdx : Nat) (narrate : Option String)
    (label : ActionLabel) (state0 : GameState) (h : MeterInv state0) :
    MeterInv ((apply_action roll nameIdx narrate label state0).fst) := by
  obtain ⟨h1, h2, h3, h4, h5, h6, h7, h8⟩ := h
  unfold MeterInv
  cases label <;> simp only [apply_action] <;> (repeat' split) <;>
    refine ⟨?_, ?_, ?_, ?_, ?_, ?_, ?_, ?_⟩ <;>
    simp [emit, _clamp] <;> omega

/-- One step preserves the meter bounds. -/
theorem inv_preserved (roll nameIdx : Nat) (narrate : Option String)
    (s : GameState) (input : String) (h : MeterInv s) :
    MeterInv ((run_step roll nameIdx narrate s input).fst) := by
  obtain ⟨h1, h2, h3, h4, h5, h6, h7, h8⟩ := h
  simp only [run_step]
  split_ifs <;>
    first
      | (refine ⟨?_, ?_, ?_, ?_, ?_, ?_, ?_, ?_⟩ <;> simp [emit] <;> omega)
      | (exact ap_inv _ _ _ _ _
          ⟨by simpa using h1, by simpa using h2, by simpa using h3,
           by simpa using h4, by simpa using h5, by simpa using h6,
           by simpa using h7, by simpa using h8⟩)

/-- Every reachable state satisfies the meter bounds. -/
theorem reachable_inv (s : GameState) (h : Reachable s) : MeterInv s := by
  induction h with
  | init => refine ⟨?_, ?_, ?_, ?_, ?_, ?_, ?_, ?_⟩ <;> decide
  | step s roll nameIdx narrate input _ ih =>
      exact inv_preserved roll nameIdx narrate s input ih

/-- C1 (counterexample): on an already-caught state, `run_step` does mutate
the state: the turn counter is incremented (lines 252-253 of `logic.py`
run before the terminal guard), contradicting the claim that every field
including the turn counter is unchanged. -/
theorem terminal_turn_increment_cex :
    ((run_step 0 0 none
        {initial_state with location := "caught", turn := 5}
        ("hello")).fst).turn ≠
      ({initial_state with location := "caught", turn := 5} :
        GameState).turn := by decide

/-- C1 (amended): on a terminal state (`caught` or `victory`), `run_step`
returns the static already-concluded message and mutates nothing except
the turn counter (incremented by exactly 1) and the history (which gains
the input and the message); the guard runs before classification. -/
theorem terminal_step_effects (roll nameIdx : Nat) (narrate : Option String)
    (s : GameState) (input : String)
    (h : s.location = "caught" ∨ s.location = "victory") :
    ((run_step roll nameIdx narrate s input).fst).location = s.location ∧
    ((run_step roll nameIdx narrate s input).fst).suspicion_L =
      s.suspicion_L ∧
    ((run_step roll nameIdx narrate s input).fst).suspicion_task_force =
      s.suspicion_task_force ∧
    ((run_step roll nameIdx narrate s input).fst).suspicion_public =
      s.suspicion_public ∧
    ((run_step roll nameIdx narrate s input).fst).notebook_hidden =
      s.notebook_hidden ∧
    ((run_step roll nameIdx narrate s input).fst).l_investigation_progress =
      s.l_investigation_progress ∧
    ((run_step roll nameIdx narrate s input).fst).flags = s.flags ∧
    ((run_step roll nameIdx narrate s input).fst).cameras_at_home =
      s.cameras_at_home ∧
    ((run_step roll nameIdx narrate s input).fst).cameras_revealed_to_player =
      s.cameras_revealed_to_player ∧
    ((run_step roll nameIdx narrate s input).fst).turn = s.turn + 1 ∧
    ∃ out, (run_step roll nameIdx narrate s input).snd = Except.ok out ∧
      ((run_step roll nameIdx narrate s input).fst).history =
        s.history ++ [HistEntry.user input, HistEntry.system out] := by
  rcases h with h | h <;>
    (have he : run_step roll nameIdx narrate s input =
        emit {s with turn := s.turn + 1,
                     history := s.history ++ [HistEntry.user input]}
          (if s.location = "caught" then caught_text else victory_text) := by
      simp [run_step, h]) <;>
    rw [he] <;> simp [emit, h]

/-- C1 (witness). -/
theorem terminal_step_effects_witness :
    ((run_step 3 1 none
        {initial_state with location := "victory", turn := 9}
        ("lay low")).fst).turn =
      ({initial_state with location := "victory", turn := 9} :
        GameState).turn + 1 :=
  (terminal_step_effects 3 1 none
    {initial_state with location := "victory", turn := 9}
    ("lay low") (Or.inr rfl)).2.2.2.2.2.2.2.2.2.1

/-- C2 (code bug): on the state actually reached right after the intro
turn, the input "status" makes `run_step` raise `AttributeError` instead
of returning the suspicion summary: `_suspicion_summary` reads
`state.cameras_revealed_to_player`, an attribute the `GameState` dataclass
in `game_state.py` never defines (the spec's data model lists it as a
field).  The engine therefore does have an unrecoverable failure mode. -/
theorem status_attribute_error :
    (run_step 0 0 none
        ((run_step 0 0 none initial_state ("begin")).fst)
        ("status")).snd =
      Except.error PyError.attributeError := rfl

/-- C3: for every reachable state and every input (any rolls, any
narration outcome), after `run_step` returns, each suspicion meter lies in
`[0,100]` and the investigation progress lies in `[0,3]`. -/
theorem meters_bounded_after_step (s : GameState) (h : Reachable s)
    (roll nameIdx : Nat) (narrate : Option String) (input : String) :
    MeterInv ((run_step roll nameIdx narrate s input).fst) :=
  inv_preserved roll nameIdx narrate s input (reachable_inv s h)

/-- C3 (witness). -/
theorem meters_bounded_after_step_witness :
    MeterInv ((run_step 7 2 none initial_state ("watch tv")).fst) :=
  meters_bounded_after_step initial_state Reachable.init 7 2 none
    ("watch tv")

/-- C9: `notebook_hidden` is invariantly true: `run_step` never sets it to
false (the hide branch can only re-set it to true), so starting from the
default it stays true in every reachable state and the un-hidden case is
unreachable. -/
theorem notebook_hidden_invariant :
    (∀ (roll nameIdx : Nat) (narrate : Option String) (s : GameState)
        (input : String), s.notebook_hidden = true →
      ((run_step roll nameIdx narrate s input).fst).notebook_hidden = true) ∧
    (∀ s : GameState, Reachable s → s.notebook_hidden = true) := by
  constructor
  · intro roll nameIdx narrate s input h
    exact run_step_notebook roll nameIdx narrate s input h
  · intro s h
    induction h with
    | init => rfl
    | step s roll nameIdx narrate input _ ih =>
        exact run_step_notebook roll nameIdx narrate s input ih

/-- C9 (witness). -/
theorem notebook_hidden_invariant_witness :
    ((run_step 11 0 none initial_state ("hide the notebook")).fst).notebook_hidden
      = true :=
  notebook_hidden_invariant.1 11 0 none initial_state ("hide the notebook")
    (notebook_hidden_invariant.2 initial_state Reachable.init)

/-- C10: `suspicion_public` is never mutated: after every `run_step` call
it equals its value before the call, so it remains at its initial value 0
for the whole session. -/
theorem suspicion_public_const :
    (∀ (roll nameIdx : Nat) (narrate : Option String) (s : GameState)
        (input : String),
      ((run_step roll nameIdx narrate s input).fst).suspicion_public =
        s.suspicion_public) ∧
    (∀ s : GameState, Reachable s → s.suspicion_public = 0) := by
  constructor
  · exact run_step_public
  · intro s h
    induction h with
    | init => rfl
    | step s roll nameIdx narrate input _ ih =>
        rw [run_step_public]
        exact ih

/-- C6: any normalized input containing both the write-name trigger (the
substrings "write" and "name") and a movement trigger phrase resolves to
`write_name` (sub-classified downstream into its degraded no-TV form),
never to a movement action: the guard chain is evaluated in source order
with first-match-wins, and the write guard precedes every movement
guard. -/
theorem write_precedence_over_movement (text : String)
    (hw : strContains text ("write") = true)
    (hn : strContains text ("name") = true)
    (_hm : containsAny text (["go home", "return home", "back home",
        "to my room", "to my house", "go to school", "go to class",
        "go to campus", "to school", "task force hq", "go to hq",
        "go to task force", "meet the task force", "go to police",
        "go downtown", "go outside", "go into the city", "walk around town",
        "go out"]) = true) :
    classify text = ActionLabel.write_name := by
  have h1 : (text == "status") = false :=
    beq_eq_false_iff_ne.mpr (fun he => absurd (he ▸ hw) (by decide))
  have g1 : text ≠ "look" := fun he => absurd (he ▸ hw) (by decide)
  have g2 : text ≠ "look around" := fun he => absurd (he ▸ hw) (by decide)
  have g3 : text ≠ "look around the room" :=
    fun he => absurd (he ▸ hw) (by decide)
  have g4 : text ≠ "where can i go" := fun he => absurd (he ▸ hw) (by decide)
  simp [classify, h1, g1, g2, g3, g4, hw, hn]

/-- C6 (witness). -/
theorem write_precedence_over_movement_witness :
    classify (pyStrip (pyLower ("write the name and go home"))) =
      ActionLabel.write_name :=
  write_precedence_over_movement (pyStrip (pyLower ("write the name and go home")))
    (by decide) (by decide) (by decide)

/-- C7: in any non-terminal, post-intro state whose `tv_target_ready` flag
is false or absent, an input classified as a write-name action performs no
kill: it degrades to `write_name_without_tv`, `suspicion_L` gains exactly 1
(clamped), no other meter and no progress changes, and the flag dictionary
is untouched — regardless of any other state field. -/
theorem write_without_tv_degrades (roll nameIdx : Nat)
    (narrate : Option String) (s : GameState) (input : String)
    (hc : s.location ≠ "caught") (hv : s.location ≠ "victory")
    (hi : s.location ≠ "intro")
    (hcl : classify (pyStrip (pyLower input)) = ActionLabel.write_name)
    (htv : flagsGet s.flags TV_TARGET_FLAG = false) :
    ((run_step roll nameIdx narrate s input).fst).suspicion_L =
      _clamp (s.suspicion_L + 1) ∧
    ((run_step roll nameIdx narrate s input).fst).suspicion_task_force =
      s.suspicion_task_force ∧
    ((run_step roll nameIdx narrate s input).fst).suspicion_public =
      s.suspicion_public ∧
    ((run_step roll nameIdx narrate s input).fst).l_investigation_progress =
      s.l_investigation_progress ∧
    ((run_step roll nameIdx narrate s input).fst).flags = s.flags := by
  refine ⟨?_, ?_, ?_, ?_, ?_⟩ <;>
    simp [run_step, hcl, apply_action, hc, hv, hi, htv]

/-- C7 (witness). -/
theorem write_without_tv_degrades_witness :
    ((run_step 50 0 none {initial_state with location := "home", turn := 1}
        ("write a name")).fst).suspicion_L =
      _clamp (({initial_state with location := "home", turn := 1} :
        GameState).suspicion_L + 1) ∧
    ((run_step 50 0 none {initial_state with location := "home", turn := 1}
        ("write a name")).fst).suspicion_task_force =
      ({initial_state with location := "home", turn := 1} :
        GameState).suspicion_task_force ∧
    ((run_step 50 0 none {initial_state with location := "home", turn := 1}
        ("write a name")).fst).suspicion_public =
      ({initial_state with location := "home", turn := 1} :
        GameState).suspicion_public ∧
    ((run_step 50 0 none {initial_state with location := "home", turn := 1}
        ("write a name")).fst).l_investigation_progress =
      ({initial_state with location := "home", turn := 1} :
        GameState).l_investigation_progress ∧
    ((run_step 50 0 none {initial_state with location := "home", turn := 1}
        ("write a name")).fst).flags =
      ({initial_state with location := "home", turn := 1} :
        GameState).flags :=
  write_without_tv_degrades 50 0 none
    {initial_state with location := "home", turn := 1} ("write a name")
    (by decide) (by decide) (by decide) (by decide) (by decide)

/-- C8 (counterexample): an off-HQ investigate attempt can change the
location after all: the generic win/lose evaluator still runs after the
action, so at home with low meters on what becomes the 10th turn the state
is absorbed into victory, contradicting the claimed location frame. -/
theorem investigate_off_hq_location_cex :
    ((run_step 99 0 none
        {initial_state with location := "home", turn := 9}
        ("investigate l")).fst).location = "victory" ∧
    ({initial_state with location := "home", turn := 9} :
      GameState).location = "home" := by decide

/-- C8 (amended): for a non-terminal, post-intro state away from Task
Force HQ, an investigate-L input leaves `l_investigation_progress`
unchanged and mutates no suspicion meter; the location is also unchanged
provided the turn's generic win/lose evaluation does not fire (otherwise
the state can still be absorbed into victory or caught). -/
theorem investigate_off_hq_frame (roll nameIdx : Nat)
    (narrate : Option String) (s : GameState) (input : String)
    (hc : s.location ≠ "caught") (hv : s.location ≠ "victory")
    (hi : s.location ≠ "intro") (hh : s.location ≠ "task_force_hq")
    (hcl : classify (pyStrip (pyLower input)) = ActionLabel.investigate_L)
    (hwin : ¬(s.suspicion_L ≤ 40 ∧ s.suspicion_task_force ≤ 40 ∧
        10 ≤ s.turn + 1))
    (hlose : ¬(100 ≤ s.suspicion_L ∨ 100 ≤ s.suspicion_task_force)) :
    ((run_step roll nameIdx narrate s input).fst).l_investigation_progress =
      s.l_investigation_progress ∧
    ((run_step roll nameIdx narrate s input).fst).location = s.location ∧
    ((run_step roll nameIdx narrate s input).fst).suspicion_L =
      s.suspicion_L ∧
    ((run_step roll nameIdx narrate s input).fst).suspicion_task_force =
      s.suspicion_task_force := by
  have hrun : run_step roll nameIdx narrate s input =
      after_action narrate false
        {s with
          turn := s.turn + 1
          history := s.history ++ [HistEntry.user input]}
        [hq_needed_text] := by
    simp [run_step, hcl, apply_action, hc, hv, hi, hh]
  refine ⟨?_, ?_, ?_, ?_⟩ <;> rw [hrun]
  · simp
  · exact aa_location _ _ _ _ (by simpa using hwin) (by simpa using hlose)
  · simp
  · simp

/-- C8 (witness). -/
theorem investigate_off_hq_frame_witness :
    ((run_step 99 0 none
        {initial_state with
         location := "school"
         turn := 3
         suspicion_L := 50
         suspicion_task_force := 50}
        ("investigate l")).fst).l_investigation_progress =
      ({initial_state with
        location := "school"
        turn := 3
        suspicion_L := 50
        suspicion_task_force := 50} :
        GameState).l_investigation_progress ∧
    ((run_step 99 0 none
        {initial_state with
         location := "school"
         turn := 3
         suspicion_L := 50
         suspicion_task_force := 50}
        ("investigate l")).fst).location =
      ({initial_state with
        location := "school"
        turn := 3
        suspicion_L := 50
        suspicion_task_force := 50} :
        GameState).location ∧
    ((run_step 99 0 none
        {initial_state with
         location := "school"
         turn := 3
         suspicion_L := 50
         suspicion_task_force := 50}
        ("investigate l")).fst).suspicion_L =
      ({initial_state with
        location := "school"
        turn := 3
        suspicion_L := 50
        suspicion_task_force := 50} :
        GameState).suspicion_L ∧
    ((run_step 99 0 none
        {initial_state with
         location := "school"
         turn := 3
         suspicion_L := 50
         suspicion_task_force := 50}
        ("investigate l")).fst).suspicion_task_force =
      ({initial_state with
        location := "school"
        turn := 3
        suspicion_L := 50
        suspicion_task_force := 50} :
        GameState).suspicion_task_force :=
  investigate_off_hq_frame 99 0 none
    {initial_state with
     location := "school"
     turn := 3
     suspicion_L := 50
     suspicion_task_force := 50}
    ("investigate l") (by decide) (by decide) (by decide) (by decide)
    (by decide) (by decide) (by decide)

/-- C5 (counterexample): the claim fails on its own sample phrase: in a
fully qualified state (progress 3, turn 6, suspicion_L 70), the input
"discover l's name" does not produce victory, because the alibi rule
(`"cover" in text`) precedes the discover rule in the chain and matches
inside the word "discover", so the turn resolves to `alibi`. -/
theorem discover_name_victory_cex :
    ((run_step 99 0 none
        {initial_state with
         location := "home"
         turn := 6
         l_investigation_progress := 3
         suspicion_L := 70}
        ("discover l\x27s name")).fst).location ≠ "victory" := by decide

/-- C5 (amended): for every non-terminal, post-intro state with
`l_investigation_progress >= 3`, `turn >= 6` and `suspicion_L <= 70`, any
input the classifier chain resolves to `discover_L_name` (it matches a
discover-name phrase and no earlier rule — e.g. "find l's name", but not
"discover l's name", which the earlier alibi rule intercepts via the
substring "cover") makes `run_step` set `location` to "victory" and
`flags["l_name_known"]` to true, skipping the generic narration path (the
outcome is independent of the narration capability). -/
theorem discover_name_victory (roll nameIdx : Nat) (narrate : Option String)
    (s : GameState) (input : String)
    (hc : s.location ≠ "caught") (hv : s.location ≠ "victory")
    (hi : s.location ≠ "intro")
    (hcl : classify (pyStrip (pyLower input)) = ActionLabel.discover_L_name)
    (hp : 3 ≤ s.l_investigation_progress) (ht : 6 ≤ s.turn)
    (hL : s.suspicion_L ≤ 70) :
    ((run_step roll nameIdx narrate s input).fst).location = "victory" ∧
    flagsGet ((run_step roll nameIdx narrate s input).fst).flags
      ("l_name_known") = true ∧
    run_step roll nameIdx narrate s input =
      run_step roll nameIdx none s input := by
  have ht1 : 6 ≤ s.turn + 1 := by omega
  refine ⟨?_, ?_, ?_⟩ <;>
    simp [run_step, hcl, apply_action, hc, hv, hi, hp, hL, ht1,
      flagsGet_flagsSet_same]

/-- C5 (witness). -/
theorem discover_name_victory_witness :
    ((run_step 99 0 none
        {initial_state with
         location := "home"
         turn := 6
         l_investigation_progress := 3
         suspicion_L := 70}
        ("find l\x27s name")).fst).location = "victory" ∧
    flagsGet ((run_step 99 0 none
        {initial_state with
         location := "home"
         turn := 6
         l_investigation_progress := 3
         suspicion_L := 70}
        ("find l\x27s name")).fst).flags ("l_name_known") = true ∧
    run_step 99 0 none
        {initial_state with
         location := "home"
         turn := 6
         l_investigation_progress := 3
         suspicion_L := 70}
        ("find l\x27s name") =
      run_step 99 0 none
        {initial_state with
         location := "home"
         turn := 6
         l_investigation_progress := 3
         suspicion_L := 70}
        ("find l\x27s name") :=
  discover_name_victory 99 0 none
    {initial_state with location := "home", turn := 6,
                        l_investigation_progress := 3, suspicion_L := 70}
    ("find l\x27s name") (by decide) (by decide) (by decide) (by decide)
    (by decide) (by decide) (by decide)

/-- C4 (counterexample): when the narration capability fails (or no
credential is configured), `run_step` does not return a fallback string:
there is no handler around the GPT call (line 698 of `logic.py`), so the
turn yields no system output at all — the error propagates. -/
theorem narration_failure_no_output_cex :
    (run_step 99 0 none
        {initial_state with
         location := "school"
         turn := 2
         cameras_at_home := some false
         cameras_revealed_to_player := some false}
        ("lay low")).snd = Except.error PyError.narrationError := rfl

/-- C4 (amended): when the narration capability fails or is absent,
`run_step` synthesizes no fallback — the failure propagates and the turn
yields no system output — but the meter mutations already committed for
the turn are neither aborted nor rolled back: they persist in the state
the caller holds (shown here for a lay-low turn away from home whose
win/lose evaluation does not fire and whose camera attributes exist so
that the external call itself is reached). -/
theorem narration_failure_propagates (roll nameIdx : Nat) (s : GameState)
    (input : String) (b : Bool)
    (hc : s.location ≠ "caught") (hv : s.location ≠ "victory")
    (hi : s.location ≠ "intro") (hhome : s.location ≠ "home")
    (hcl : classify (pyStrip (pyLower input)) = ActionLabel.lay_low)
    (hcam : s.cameras_at_home = some b)
    (hwin : ¬(_clamp (s.suspicion_L - 2) ≤ 40 ∧
        _clamp (s.suspicion_task_force - 1) ≤ 40 ∧ 10 ≤ s.turn + 1))
    (hlose : ¬(100 ≤ _clamp (s.suspicion_L - 2) ∨
        100 ≤ _clamp (s.suspicion_task_force - 1))) :
    (run_step roll nameIdx none s input).snd =
      Except.error PyError.narrationError ∧
    ((run_step roll nameIdx none s input).fst).suspicion_L =
      _clamp (s.suspicion_L - 2) ∧
    ((run_step roll nameIdx none s input).fst).suspicion_task_force =
      _clamp (s.suspicion_task_force - 1) ∧
    ((run_step roll nameIdx none s input).fst).location = s.location := by
  have hrun : run_step roll nameIdx none s input =
      narrate_and_close none false
        {s with
          turn := s.turn + 1
          history := s.history ++ [HistEntry.user input]
          suspicion_L := _clamp (s.suspicion_L - 2)
          suspicion_task_force := _clamp (s.suspicion_task_force - 1)}
        [] := by
    simp [run_step, hcl, apply_action, hc, hv, hi, after_action, hhome,
      win_lose_and_narrate, hwin, hlose]
  rw [hrun]
  simp [narrate_and_close, generate_narration, hcam]

/-- C4 (witness). -/
theorem narration_failure_propagates_witness :
    (run_step 99 0 none
        {initial_state with
         location := "school"
         turn := 2
         cameras_at_home := some false
         cameras_revealed_to_player := some false}
        ("lay low")).snd = Except.error PyError.narrationError ∧
    ((run_step 99 0 none
        {initial_state with
         location := "school"
         turn := 2
         cameras_at_home := some false
         cameras_revealed_to_player := some false}
        ("lay low")).fst).suspicion_L =
      _clamp (({initial_state with
        location := "school"
        turn := 2
        cameras_at_home := some false
        cameras_revealed_to_player := some false} :
        GameState).suspicion_L - 2) ∧
    ((run_step 99 0 none
        {initial_state with
         location := "school"
         turn := 2
         cameras_at_home := some false
         cameras_revealed_to_player := some false}
        ("lay low")).fst).suspicion_task_force =
      _clamp (({initial_state with
        location := "school"
        turn := 2
        cameras_at_home := some false
        cameras_revealed_to_player := some false} :
        GameState).suspicion_task_force - 1) ∧
    ((run_step 99 0 none
        {initial_state with
         location := "school"
         turn := 2
         cameras_at_home := some false
         cameras_revealed_to_player := some false}
        ("lay low")).fst).location =
      ({initial_state with
        location := "school"
        turn := 2
        cameras_at_home := some false
        cameras_revealed_to_player := some false} : GameState).location :=
  narration_failure_propagates 99 0
    {initial_state with location := "school", turn := 2,
                        cameras_at_home := some false,
                        cameras_revealed_to_player := some false}
    ("lay low") false (by decide) (by decide) (by decide) (by decide)
    (by decide) (by decide) (by decide) (by decide)

/-- C10 (witness). -/
theorem suspicion_public_const_witness :
    ((run_step 40 3 none initial_state ("cooperate")).fst).suspicion_public =
      initial_state.suspicion_public ∧
    initial_state.suspicion_public = 0 :=
  ⟨suspicion_public_const.1 40 3 none initial_state ("cooperate"),
   suspicion_public_const.2 initial_state Reachable.init⟩

end DeathNote
